import Mathlib

/-!
Verification of the pan/zoom engine in `src/lib/panzoom.ts`.

The whole engine is one closure over a canvas 2d rendering context: the
context's current transform is the single affine mapping from image space to
device space, and every handler mutates it through `ctx.translate`,
`ctx.scale`, `ctx.resetTransform` and `ctx.setTransform`.  The code only ever
composes uniform scales and translations, so the matrix always has the shape
`[a 0 e; 0 a f]`; the model keeps the uniform scale `a` and the translation
column `(e, f)`.

Numbers are modelled by the reals.  JavaScript arithmetic can additionally
produce `Infinity`, `-Infinity` and `NaN`; the one place in this source where
that happens with finite inputs is division (the pinch ratio `dist /
prev_dist` and the corrective divisors in `zoomOn`), so division results are
modelled by `JSVal`, a real extended with the three non-finite values.  The
HTML canvas specification makes `ctx.scale`, `ctx.translate` and friends
ignore any call with a non-finite argument, which `Transform.scaleBy`
reflects; consequently a transform, once finite, stays finite, and the model
can keep the matrix entries in `ℝ`.
-/

namespace Panzoom

/-- Point models the source's 2d point record, with real coordinates. -/
structure Point where
  x : ℝ
  y : ℝ

/-- JSVal models the result of a JavaScript arithmetic operation: a finite
real number, or one of the non-finite values Infinity, -Infinity and NaN. -/
inductive JSVal where
  | fin (x : ℝ)
  | posInf
  | negInf
  | nan

/-- jsDiv models JavaScript division `x / y` of finite operands: it is the
real quotient when the divisor is nonzero, and a non-finite value (NaN for
0/0, signed Infinity otherwise) when the divisor is zero. -/
noncomputable def jsDiv (x y : ℝ) : JSVal :=
  if y = 0 then (if x = 0 then JSVal.nan else if 0 < x then JSVal.posInf else JSVal.negInf)
  else JSVal.fin (x / y)

/-- Transform models the canvas context's current transform.  The source only
composes uniform scales and translations onto the identity, so `b = c = 0`
and `d = a` always; the model stores the uniform scale `a` (the source reads
it back as `transform.a`) and the translation column `(e, f)`. -/
structure Transform where
  a : ℝ
  e : ℝ
  f : ℝ

/-- translate models `ctx.translate(dx, dy)`: the canvas post-multiplies the
current transform by the translation, so the translation column moves by the
scaled delta. -/
noncomputable def Transform.translate (t : Transform) (dx dy : ℝ) : Transform :=
  { t with e := t.e + t.a * dx, f := t.f + t.a * dy }

/-- scaleBy models `ctx.scale(v, v)`.  The canvas specification directs the
call to be ignored when an argument is non-finite, so only a finite factor
ever reaches the matrix. -/
noncomputable def Transform.scaleBy (t : Transform) (v : JSVal) : Transform :=
  match v with
  | JSVal.fin x => { t with a := t.a * x }
  | _ => t

/-- identityT models `ctx.resetTransform()`. -/
def identityT : Transform := { a := 1, e := 0, f := 0 }

/-- applyT projects an image-space point to device space through the
transform, as `ctx.getTransform().transformPoint` would. -/
noncomputable def applyT (t : Transform) (p : Point) : Point :=
  { x := t.a * p.x + t.e, y := t.a * p.y + t.f }

/-- toImageSpace models the source's `toImageSpace`: apply the inverse of the
current transform to a device-space point.  For the matrix `[a 0 e; 0 a f]`
the inverse maps `q` to `((q.x - e) / a, (q.y - f) / a)`. -/
noncomputable def toImageSpace (t : Transform) (q : Point) : Point :=
  { x := (q.x - t.e) / t.a, y := (q.y - t.f) / t.a }

/-- distance models the source's `distance` helper, `Math.hypot` of the
coordinate differences. -/
noncomputable def distance (p1 p2 : Point) : ℝ :=
  Real.sqrt ((p1.x - p2.x) ^ 2 + (p1.y - p2.y) ^ 2)

/-- midpoint models the source's `midpoint` helper. -/
noncomputable def midpoint (p1 p2 : Point) : Point :=
  { x := (p1.x + p2.x) / 2, y := (p1.y + p2.y) / 2 }

/-- subtract models the source's `subtract` helper. -/
noncomputable def subtract (p1 p2 : Point) : Point :=
  { x := p1.x - p2.x, y := p1.y - p2.y }

/-- Options models the exported `Options` record; `padding` and `maxZoom` are
optional with defaults applied by `initializeState`.  The `render` callback only
repaints and never touches the engine state, so the model omits it. -/
structure Options where
  width : ℝ
  height : ℝ
  padding : Option ℝ := none
  maxZoom : Option ℝ := none

/-- PZ is the closure state of one attached panzoom instance:
`attachOptions` is the `options` argument captured by the `panzoom` call
itself (the resize callback reads `options.width` and `options.height` from
it); `minZoom`, `width`, `height`, `padding` and `maxZoom` are the mutable
variables rewritten by each `initializeState`; `view_width`/`view_height` mirror
`canvas.width`/`canvas.height` (device pixels); `pointers` is the active
pointer map in insertion order; `renders` counts the `rerender` calls, so a
step that leaves it unchanged triggered no render. -/
structure PZ where
  attachOptions : Options
  minZoom : ℝ
  width : ℝ
  height : ℝ
  padding : ℝ
  maxZoom : ℝ
  view_width : ℝ
  view_height : ℝ
  dpr : ℝ
  transform : Transform
  pointers : List (Nat × Point)
  renders : Nat

/-- moveBy models the source's `moveBy`: translate the transform by the
image-space delta. -/
noncomputable def moveBy (t : Transform) (delta : Point) : Transform :=
  t.translate delta.x delta.y

/-- scaleAbout models the inner `scale` helper of `zoomOn`: translate to the
anchor, scale, translate back, which keeps the anchor's projection fixed. -/
noncomputable def scaleAbout (t : Transform) (p : Point) (v : JSVal) : Transform :=
  ((t.translate p.x p.y).scaleBy v).translate (-p.x) (-p.y)

/-- zoomOn models the source's `zoomOn` acting on the transform: apply the
requested factor about the anchor, capture the resulting scale once (the
source reads `ctx.getTransform()` once into `transform`), then apply the
min and the max corrective rescale about the same anchor.  Both conditions
and both corrective divisors use that captured scale. -/
noncomputable def zoomOn (minZoom maxZoom : ℝ) (t : Transform) (p : Point)
    (zoom : JSVal) : Transform :=
  let t1 := scaleAbout t p zoom
  let t2 := if t1.a < minZoom then scaleAbout t1 p (jsDiv minZoom t1.a) else t1
  if maxZoom < t1.a then scaleAbout t2 p (jsDiv maxZoom t1.a) else t2

/-- hasPointer models `pointers.has(id)`. -/
def hasPointer (l : List (Nat × Point)) (id : Nat) : Bool :=
  (l.lookup id).isSome

/-- getPointer models `pointers.get(id)!`; the handler only reads it for a
present id, so the default is never reached there. -/
def getPointer (l : List (Nat × Point)) (id : Nat) : Point :=
  (l.lookup id).getD { x := 0, y := 0 }

/-- setPointer models `pointers.set(id, p)` on a JavaScript Map: an existing
key keeps its place in insertion order, a new key is appended. -/
def setPointer (l : List (Nat × Point)) (id : Nat) (p : Point) : List (Nat × Point) :=
  match l with
  | [] => [(id, p)]
  | e :: rest => if e.1 = id then (id, p) :: rest else e :: setPointer rest id p

/-- onpointermove models the source's `onpointermove` handler: ignore an
unknown pointer id; with one active pointer pan by the image-space delta of
the moved pointer; with two active pointers read both stored points through
`toImageSpace`, record midpoint and distance, store the moved pointer's new
position, recompute both, translate by the midpoint drift, and zoom by the
distance ratio anchored at the new midpoint (the source's `zoomOn` ends in a
`rerender`, counted here); any other active-pointer count falls through the
switch and changes nothing. -/
noncomputable def onpointermove (s : PZ) (id : Nat) (point : Point) : PZ :=
  if hasPointer s.pointers id = false then s
  else if s.pointers.length = 1 then
    let prev := getPointer s.pointers id
    let diff := subtract (toImageSpace s.transform point) (toImageSpace s.transform prev)
    { s with transform := moveBy s.transform diff,
             renders := s.renders + 1,
             pointers := setPointer s.pointers id point }
  else if s.pointers.length = 2 then
    let pts := s.pointers.map Prod.snd
    let p1 := toImageSpace s.transform (pts.getD 0 { x := 0, y := 0 })
    let p2 := toImageSpace s.transform (pts.getD 1 { x := 0, y := 0 })
    let prev_middle := midpoint p1 p2
    let prev_dist := distance p1 p2
    let ps2 := setPointer s.pointers id point
    let pts2 := ps2.map Prod.snd
    let q1 := toImageSpace s.transform (pts2.getD 0 { x := 0, y := 0 })
    let q2 := toImageSpace s.transform (pts2.getD 1 { x := 0, y := 0 })
    let mid := midpoint q1 q2
    let d := distance q1 q2
    let diff := subtract mid prev_middle
    let zoom := jsDiv d prev_dist
    { s with transform := zoomOn s.minZoom s.maxZoom (moveBy s.transform diff) mid zoom,
             renders := s.renders + 1,
             pointers := ps2 }
  else s

/-- initializeState models the source's `initializeState`: apply the option defaults
(`padding` 0, `maxZoom` 16), recompute `minZoom` from the current canvas
size, rebuild the transform by reset, translate to the canvas center, scale
by `minZoom` and translate by minus half the image size, then rerender.  The
attach-time `attachOptions` is untouched: `initializeState` rewrites only the
destructured variables. -/
noncomputable def initializeState (s : PZ) (o : Options) : PZ :=
  let padding := o.padding.getD 0
  let maxZoom := o.maxZoom.getD 16
  let minZoom := min (s.view_width / (o.width + padding * s.dpr))
                     (s.view_height / (o.height + padding * s.dpr))
  let t := ((identityT.translate (s.view_width / 2) (s.view_height / 2)).scaleBy
              (JSVal.fin minZoom)).translate (-(o.width / 2)) (-(o.height / 2))
  { s with width := o.width, height := o.height, padding := padding,
           maxZoom := maxZoom, minZoom := minZoom, transform := t,
           renders := s.renders + 1 }

/-- panzoom models attaching the action: record the options argument and the
initial canvas size (client size times device pixel ratio) and run
`initializeState` once. -/
noncomputable def panzoom (o : Options) (clientWidth clientHeight dpr : ℝ) : PZ :=
  initializeState
    { attachOptions := o, minZoom := 0, width := 0, height := 0, padding := 0,
      maxZoom := 0, view_width := clientWidth * dpr, view_height := clientHeight * dpr,
      dpr := dpr, transform := identityT, pointers := [], renders := 0 } o

/-- update models `handle.update(options)`, which just runs `initializeState`
again with the new options (and, like the source, leaves the attach-time
`options` binding alone). -/
noncomputable def update (s : PZ) (o : Options) : PZ :=
  initializeState s o

/-- resizeCB models the resize-observer callback: capture the image-space
point at the old canvas center and the transform snapshot, store the new
device size, recompute `minZoom` — the source reads `options.width` and
`options.height` from the attach-time options object while taking `padding`
from the current variable —, restore the snapshot (assigning `canvas.width`
cleared the context transform) and translate so the previously centered
image-space point is centered again, then rerender. -/
noncomputable def resizeCB (s : PZ) (rectWidth rectHeight : ℝ) : PZ :=
  let prev := toImageSpace s.transform { x := s.view_width / 2, y := s.view_height / 2 }
  let transform := s.transform
  let vw := rectWidth * s.dpr
  let vh := rectHeight * s.dpr
  let minZoom := min (vw / (s.attachOptions.width + s.padding * s.dpr))
                     (vh / (s.attachOptions.height + s.padding * s.dpr))
  let middle := toImageSpace transform { x := vw / 2, y := vh / 2 }
  let t2 := transform.translate (middle.x - prev.x) (middle.y - prev.y)
  { s with view_width := vw, view_height := vh, minZoom := minZoom,
           transform := t2, renders := s.renders + 1 }

/-- baseOptions is a concrete valid configuration: image 200 by 100, default
padding and maxZoom. -/
def baseOptions : Options := { width := 200, height := 100 }

/-- baseState is a concrete attached instance used by the witnesses: image
200 by 100 shown at scale 1 in a 400 by 200 canvas, zoom bounds [1/2, 16],
device pixel ratio 1, no active pointer. -/
noncomputable def baseState : PZ :=
  { attachOptions := baseOptions, minZoom := 1 / 2, width := 200, height := 100,
    padding := 0, maxZoom := 16, view_width := 400, view_height := 200, dpr := 1,
    transform := { a := 1, e := 0, f := 0 }, pointers := [], renders := 0 }

/-- onePointerState is baseState with a single active pointer. -/
noncomputable def onePointerState : PZ :=
  { baseState with pointers := [(7, { x := 30, y := 40 })] }

/-- threePointerState is baseState with three active pointers. -/
noncomputable def threePointerState : PZ :=
  { baseState with
      pointers := [(1, { x := 0, y := 0 }), (2, { x := 50, y := 0 }), (3, { x := 0, y := 50 })] }

/-- twoPointerSameState is an attached instance whose two active pointers sit
at the same device point (100, 100), with the current scale 1 below the
minimum zoom 2, as a resize that grew the canvas can leave it. -/
noncomputable def twoPointerSameState : PZ :=
  { baseState with
      minZoom := 2
      pointers := [(1, { x := 100, y := 100 }), (2, { x := 100, y := 100 })] }

/-- pinchState is the identity-transform instance of the pinch scenario: two
active pointers at device points (100, 100) and (200, 100), zoom bounds
[1/2, 16] wide enough that the scenario never clamps. -/
noncomputable def pinchState : PZ :=
  { baseState with
      pointers := [(1, { x := 100, y := 100 }), (2, { x := 200, y := 100 })] }

/-- optsA is a concrete attach-time configuration: image 200 by 100. -/
def optsA : Options := { width := 200, height := 100 }

/-- optsB is a concrete replacement configuration: image 400 by 200. -/
def optsB : Options := { width := 400, height := 200 }

/-- Translating never changes the uniform scale entry. -/
@[simp] theorem translate_a (t : Transform) (dx dy : ℝ) : (t.translate dx dy).a = t.a := rfl

/-- Scaling by a finite factor multiplies the uniform scale entry. -/
@[simp] theorem scaleBy_fin_a (t : Transform) (x : ℝ) :
    (t.scaleBy (JSVal.fin x)).a = t.a * x := rfl

/-- The scale entry after scaleAbout with a finite factor. -/
theorem scaleAbout_fin_a (t : Transform) (p : Point) (x : ℝ) :
    (scaleAbout t p (JSVal.fin x)).a = t.a * x := rfl

/-- scaleAbout with a non-finite factor is the identity on the transform: the
canvas ignores the scale call and the two translations cancel exactly. -/
theorem scaleAbout_nonfin (t : Transform) (p : Point) (v : JSVal)
    (hv : ∀ x : ℝ, v ≠ JSVal.fin x) : scaleAbout t p v = t := by
  cases v with
  | fin x => exact absurd rfl (hv x)
  | posInf => cases t; simp [scaleAbout, Transform.translate, Transform.scaleBy]
  | negInf => cases t; simp [scaleAbout, Transform.translate, Transform.scaleBy]
  | nan => cases t; simp [scaleAbout, Transform.translate, Transform.scaleBy]

/-- scaleAbout keeps the projection of its anchor point fixed, whatever the
factor is. -/
theorem applyT_scaleAbout (t : Transform) (p : Point) (v : JSVal) :
    applyT (scaleAbout t p v) p = applyT t p := by
  cases v <;> cases t <;> cases p <;>
    simp [scaleAbout, Transform.translate, Transform.scaleBy, applyT, Point.mk.injEq] <;>
    ring_nf <;> simp

/-- The distance from a point to itself is zero. -/
theorem distance_self (p : Point) : distance p p = 0 := by
  simp [distance]

/-- distance unfolded on point literals. -/
theorem distance_mk (x1 y1 x2 y2 : ℝ) :
    distance { x := x1, y := y1 } { x := x2, y := y2 } =
      Real.sqrt ((x1 - x2) ^ 2 + (y1 - y2) ^ 2) := rfl

/-- JavaScript division by zero never yields a finite value. -/
theorem jsDiv_zero_nonfin (x : ℝ) : ∀ y : ℝ, jsDiv x 0 ≠ JSVal.fin y := by
  intro y
  unfold jsDiv
  rw [if_pos rfl]
  by_cases h0 : x = 0
  · rw [if_pos h0]; simp
  · rw [if_neg h0]
    by_cases h1 : 0 < x
    · rw [if_pos h1]; simp
    · rw [if_neg h1]; simp

/-- zoomOn with a non-finite requested factor: the canvas ignores the scale
call, so only the corrective clamp acts, and the resulting uniform scale is
the original scale clamped into [minZoom, maxZoom]. -/
theorem zoomOn_nonfin_a (mz Mz : ℝ) (t : Transform) (p : Point) (v : JSVal)
    (hv : ∀ x : ℝ, v ≠ JSVal.fin x) (ha : t.a ≠ 0) (hmM : mz ≤ Mz) :
    (zoomOn mz Mz t p v).a =
      if t.a < mz then mz else if Mz < t.a then Mz else t.a := by
  simp only [zoomOn, scaleAbout_nonfin t p v hv]
  by_cases h1 : t.a < mz
  · have h2 : ¬ Mz < t.a := by linarith
    rw [if_pos h1, if_neg h2, if_pos h1, jsDiv, if_neg ha]
    simp only [scaleAbout_fin_a]
    field_simp
  · rw [if_neg h1, if_neg h1]
    by_cases h2 : Mz < t.a
    · rw [if_pos h2, if_pos h2, jsDiv, if_neg ha]
      simp only [scaleAbout_fin_a]
      field_simp
    · rw [if_neg h2, if_neg h2]

/-- Unfolding of the two-pointer branch of onpointermove when the first
stored pointer moves: the stored list becomes [(i1, q), (i2, r2)], and the
transform gets the pan translation followed by the zoomOn at the new
image-space midpoint with the image-space distance ratio. -/
theorem onpointermove_pinch_fst (s : PZ) (i1 i2 : Nat) (r1 r2 q : Point)
    (hp : s.pointers = [(i1, r1), (i2, r2)]) :
    onpointermove s i1 q =
      { s with
          transform :=
            zoomOn s.minZoom s.maxZoom
              (moveBy s.transform
                (subtract (midpoint (toImageSpace s.transform q) (toImageSpace s.transform r2))
                  (midpoint (toImageSpace s.transform r1) (toImageSpace s.transform r2))))
              (midpoint (toImageSpace s.transform q) (toImageSpace s.transform r2))
              (jsDiv (distance (toImageSpace s.transform q) (toImageSpace s.transform r2))
                (distance (toImageSpace s.transform r1) (toImageSpace s.transform r2))),
          renders := s.renders + 1,
          pointers := [(i1, q), (i2, r2)] } := by
  simp [onpointermove, hp, hasPointer, setPointer, List.lookup]

/-- Unfolding of the two-pointer branch of onpointermove when the second
stored pointer moves. -/
theorem onpointermove_pinch_snd (s : PZ) (i1 i2 : Nat) (r1 r2 q : Point)
    (hp : s.pointers = [(i1, r1), (i2, r2)]) (hne : i1 ≠ i2) :
    onpointermove s i2 q =
      { s with
          transform :=
            zoomOn s.minZoom s.maxZoom
              (moveBy s.transform
                (subtract (midpoint (toImageSpace s.transform r1) (toImageSpace s.transform q))
                  (midpoint (toImageSpace s.transform r1) (toImageSpace s.transform r2))))
              (midpoint (toImageSpace s.transform r1) (toImageSpace s.transform q))
              (jsDiv (distance (toImageSpace s.transform r1) (toImageSpace s.transform q))
                (distance (toImageSpace s.transform r1) (toImageSpace s.transform r2))),
          renders := s.renders + 1,
          pointers := [(i1, r1), (i2, q)] } := by
  have hb : (i2 == i1) = false := beq_eq_false_iff_ne.mpr (Ne.symm hne)
  simp [onpointermove, hp, hasPointer, setPointer, List.lookup, hb, hne]

/-- C1: for an attached instance (positive scale, positive minZoom) with
minZoom at most maxZoom, one call of zoomOn with any anchor point and any
positive factor leaves the uniform scale inside [minZoom, maxZoom]; the
corrective rescale, not a rejection, enforces the clamp.  Because the
resulting scale again lies in the interval (so is positive), the invariant
holds after every operation of any sequence of zoom operations. -/
theorem zoomOn_scale_clamped (mz Mz : ℝ) (t : Transform) (p : Point) (z : ℝ)
    (hmz : 0 < mz) (hmM : mz ≤ Mz) (ha : 0 < t.a) (hz : 0 < z) :
    mz ≤ (zoomOn mz Mz t p (JSVal.fin z)).a ∧ (zoomOn mz Mz t p (JSVal.fin z)).a ≤ Mz := by
  have hpos : 0 < t.a * z := mul_pos ha hz
  have hne : t.a * z ≠ 0 := ne_of_gt hpos
  simp only [zoomOn, scaleAbout_fin_a]
  by_cases h1 : t.a * z < mz
  · rw [if_pos h1, jsDiv, if_neg hne]
    have hMz : ¬ Mz < t.a * z := by linarith
    rw [if_neg hMz]
    simp only [scaleAbout_fin_a]
    have hcancel : t.a * z * (mz / (t.a * z)) = mz := by field_simp
    rw [hcancel]
    exact ⟨le_refl mz, hmM⟩
  · rw [if_neg h1]
    push_neg at h1
    by_cases h2 : Mz < t.a * z
    · rw [if_pos h2, jsDiv, if_neg hne]
      simp only [scaleAbout_fin_a]
      have hcancel : t.a * z * (Mz / (t.a * z)) = Mz := by field_simp
      rw [hcancel]
      exact ⟨hmM, le_refl Mz⟩
    · rw [if_neg h2]
      push_neg at h2
      exact ⟨h1, h2⟩

/-- Witness for C1: zooming in by factor 32 from scale 1 with bounds [1, 16]
lands inside the bounds. -/
theorem zoomOn_scale_clamped_witness :
    (1:ℝ) ≤ (zoomOn 1 16 { a := 1, e := 0, f := 0 } { x := 0, y := 0 } (JSVal.fin 32)).a ∧
    (zoomOn 1 16 { a := 1, e := 0, f := 0 } { x := 0, y := 0 } (JSVal.fin 32)).a ≤ 16 :=
  zoomOn_scale_clamped 1 16 { a := 1, e := 0, f := 0 } { x := 0, y := 0 } 32
    (by norm_num) (by norm_num) (by norm_num) (by norm_num)

/-- C2: zoomOn leaves the device-space projection of its anchor point
unchanged for every positive factor, over every transform and bound pair, in
particular also when the min or max corrective rescale rewrites the factor:
every step is a scaleAbout at the same anchor. -/
theorem zoomOn_anchor_invariant (mz Mz : ℝ) (t : Transform) (p : Point) (z : ℝ)
    (hz : 0 < z) :
    applyT (zoomOn mz Mz t p (JSVal.fin z)) p = applyT t p := by
  simp only [zoomOn]
  by_cases h2 : Mz < (scaleAbout t p (JSVal.fin z)).a
  · rw [if_pos h2, applyT_scaleAbout]
    by_cases h1 : (scaleAbout t p (JSVal.fin z)).a < mz
    · rw [if_pos h1, applyT_scaleAbout, applyT_scaleAbout]
    · rw [if_neg h1, applyT_scaleAbout]
  · rw [if_neg h2]
    by_cases h1 : (scaleAbout t p (JSVal.fin z)).a < mz
    · rw [if_pos h1, applyT_scaleAbout, applyT_scaleAbout]
    · rw [if_neg h1, applyT_scaleAbout]

/-- Witness for C2: a concrete zoom whose factor 8 gets clamped by the max
bound still fixes the anchor's projection. -/
theorem zoomOn_anchor_invariant_witness :
    applyT (zoomOn 1 4 { a := 2, e := 3, f := 4 } { x := 5, y := 6 } (JSVal.fin 8))
        { x := 5, y := 6 } =
      applyT { a := 2, e := 3, f := 4 } { x := 5, y := 6 } :=
  zoomOn_anchor_invariant 1 4 { a := 2, e := 3, f := 4 } { x := 5, y := 6 } 8 (by norm_num)

/-- C4 counterexample: initialization with the non-positive width -100 does
not fail: it completes and produces a degenerate transform, here with the
negative uniform scale -4 (the computed minZoom is min (400 / -100) (200 /
100) = -4).  The source's initialize contains no validation at all. -/
theorem initializeState_no_validation_cex :
    (panzoom { width := -100, height := 100 } 400 200 1).transform.a = -4 ∧
    (panzoom { width := -100, height := 100 } 400 200 1).transform.a < 0 := by
  constructor <;>
    · simp [panzoom, initializeState, identityT, Transform.translate, Transform.scaleBy]
      norm_num

/-- C4 (amended): initialization never fails and performs no validation: it
is total, and for every Options whose width plus scaled padding is negative
it completes with a degenerate transform whose uniform scale is negative
(and still equal to the computed minZoom), rather than reporting an error. -/
theorem initializeState_no_validation (s : PZ) (o : Options)
    (hvw : 0 < s.view_width) (hw : o.width + o.padding.getD 0 * s.dpr < 0) :
    (initializeState s o).transform.a = (initializeState s o).minZoom ∧
    (initializeState s o).transform.a < 0 := by
  have ha : (initializeState s o).transform.a = (initializeState s o).minZoom := by
    simp [initializeState, identityT, Transform.translate, Transform.scaleBy]
  refine ⟨ha, ?_⟩
  rw [ha]
  have hq1 : s.view_width / (o.width + o.padding.getD 0 * s.dpr) < 0 :=
    div_neg_of_pos_of_neg hvw hw
  calc (initializeState s o).minZoom
      ≤ s.view_width / (o.width + o.padding.getD 0 * s.dpr) := min_le_left _ _
    _ < 0 := hq1

/-- Witness for C4 (amended): initializing baseState with width -100 and
default padding completes with a negative scale equal to minZoom. -/
theorem initializeState_no_validation_witness :
    (initializeState baseState { width := -100, height := 100 }).transform.a =
      (initializeState baseState { width := -100, height := 100 }).minZoom ∧
    (initializeState baseState { width := -100, height := 100 }).transform.a < 0 :=
  initializeState_no_validation baseState { width := -100, height := 100 }
    (by norm_num [baseState]) (by norm_num [baseState])

/-- C5 counterexample: with device pixel ratio 2, padding 10 and a 100 by 100
image in a 400 by 400 device-pixel canvas, the code computes minZoom = min
(400 / (100 + 10 * 2)) (400 / (100 + 10 * 2)) = 10 / 3, while the claimed
formula min (deviceWidth / (width + padding)) (deviceHeight / (height +
padding)) gives 400 / 110: the source multiplies the padding by the device
pixel ratio. -/
theorem initializeState_padding_dpr_cex :
    (panzoom { width := 100, height := 100, padding := some 10 } 200 200 2).minZoom = 10 / 3 ∧
    (panzoom { width := 100, height := 100, padding := some 10 } 200 200 2).minZoom ≠
      min ((400:ℝ) / (100 + 10)) ((400:ℝ) / (100 + 10)) := by
  have h : (panzoom { width := 100, height := 100, padding := some 10 } 200 200 2).minZoom
      = 10 / 3 := by
    simp [panzoom, initializeState]
    norm_num
  refine ⟨h, ?_⟩
  rw [h]
  norm_num

/-- C5 (amended): initialization computes minZoom = min (deviceWidth / (width
+ padding * dpr)) (deviceHeight / (height + padding * dpr)) with the device
dimensions in device pixels and the padding scaled by the device pixel ratio,
sets the transform's uniform scale to minZoom, and maps the image center to
the canvas center; in the concrete scenario (image 200 by 100, device 400 by
200, padding 0, dpr 1) minZoom is 2 and (100, 50) maps to (200, 100). -/
theorem initializeState_minZoom_center (s : PZ) (o : Options) :
    (initializeState s o).minZoom =
      min (s.view_width / (o.width + o.padding.getD 0 * s.dpr))
          (s.view_height / (o.height + o.padding.getD 0 * s.dpr)) ∧
    (initializeState s o).transform.a = (initializeState s o).minZoom ∧
    applyT (initializeState s o).transform { x := o.width / 2, y := o.height / 2 } =
      { x := s.view_width / 2, y := s.view_height / 2 } ∧
    (panzoom { width := 200, height := 100 } 400 200 1).minZoom = 2 ∧
    applyT (panzoom { width := 200, height := 100 } 400 200 1).transform
        { x := 100, y := 50 } = { x := 200, y := 100 } := by
  refine ⟨rfl, ?_, ?_, ?_, ?_⟩
  · simp [initializeState, identityT, Transform.translate, Transform.scaleBy]
  · simp [initializeState, identityT, Transform.translate, Transform.scaleBy, applyT,
      Point.mk.injEq]
  · simp [panzoom, initializeState]
    norm_num
  · simp [panzoom, initializeState, identityT, Transform.translate, Transform.scaleBy,
      applyT, Point.mk.injEq]
    norm_num

/-- C6 (code bug): after handle.update with the new options optsB (image 400
by 200), a resize notification recomputes minZoom from the attach-time
options optsA (image 200 by 100) — the resize callback reads options.width
and options.height from the closure argument, which update never rewrites —
yielding min (400 / 200) (200 / 100) = 2 instead of the value 1 that the
width and height of the most recent initialization give. -/
theorem resizeCB_stale_options :
    (resizeCB (update (panzoom optsA 400 200 1) optsB) 400 200).minZoom = 2 ∧
    (resizeCB (update (panzoom optsA 400 200 1) optsB) 400 200).minZoom ≠
      min ((400:ℝ) / 400) ((200:ℝ) / 200) := by
  have h : (resizeCB (update (panzoom optsA 400 200 1) optsB) 400 200).minZoom = 2 := by
    simp [resizeCB, update, panzoom, initializeState, optsA, optsB]
    norm_num
  refine ⟨h, ?_⟩
  rw [h]
  norm_num

/-- C7: a resize notification never rescales content: the uniform scale after
the resize callback equals the scale before it, and the image-space point
that projected to the old canvas center projects to the new canvas center. -/
theorem resizeCB_center_preserved (s : PZ) (rectWidth rectHeight : ℝ)
    (ha : s.transform.a ≠ 0) :
    (resizeCB s rectWidth rectHeight).transform.a = s.transform.a ∧
    applyT (resizeCB s rectWidth rectHeight).transform
        (toImageSpace s.transform { x := s.view_width / 2, y := s.view_height / 2 }) =
      { x := rectWidth * s.dpr / 2, y := rectHeight * s.dpr / 2 } := by
  constructor
  · rfl
  · simp [resizeCB, toImageSpace, applyT, Transform.translate, Point.mk.injEq]
    constructor <;> · field_simp; ring

/-- Witness for C7: resizing the concrete baseState to 300 by 150 keeps the
scale and recenters the previously centered image-space point. -/
theorem resizeCB_center_preserved_witness :
    (resizeCB baseState 300 150).transform.a = baseState.transform.a ∧
    applyT (resizeCB baseState 300 150).transform
        (toImageSpace baseState.transform
          { x := baseState.view_width / 2, y := baseState.view_height / 2 }) =
      { x := 300 * baseState.dpr / 2, y := 150 * baseState.dpr / 2 } :=
  resizeCB_center_preserved baseState 300 150 (by norm_num [baseState])

/-- C8: a single-pointer move keeps the image-space point under the pointer:
the inverse transform applied to the previous device point before the update
equals the inverse transform applied to the new device point after it. -/
theorem onpointermove_pan_sticks (s : PZ) (id : Nat) (prev npt : Point)
    (hp : s.pointers = [(id, prev)]) (ha : s.transform.a ≠ 0) :
    toImageSpace (onpointermove s id npt).transform npt =
      toImageSpace s.transform prev := by
  simp only [onpointermove, hp, hasPointer, getPointer, List.lookup, beq_self_eq_true,
    Option.isSome_some, List.length_cons, List.length_nil]
  simp only [moveBy, Transform.translate, toImageSpace, subtract, Point.mk.injEq]
  norm_num
  constructor <;> (field_simp; ring)

/-- Witness for C8: moving the single active pointer of onePointerState from
(30, 40) to (90, 10) leaves the same image-space point under the cursor. -/
theorem onpointermove_pan_sticks_witness :
    toImageSpace (onpointermove onePointerState 7 { x := 90, y := 10 }).transform
        { x := 90, y := 10 } =
      toImageSpace onePointerState.transform { x := 30, y := 40 } :=
  onpointermove_pan_sticks onePointerState 7 { x := 30, y := 40 } { x := 90, y := 10 }
    (by simp [onePointerState, baseState]) (by norm_num [onePointerState, baseState])

/-- C10: with three or more active pointers a move event for any pointer is a
complete no-op on the state: the transform, the stored pointer positions and
the render count are all unchanged, because the handler's switch has branches
only for the active-pointer counts 1 and 2. -/
theorem onpointermove_three_noop (s : PZ) (id : Nat) (point : Point)
    (h : 3 ≤ s.pointers.length) : onpointermove s id point = s := by
  have h1 : ¬ s.pointers.length = 1 := by omega
  have h2 : ¬ s.pointers.length = 2 := by omega
  unfold onpointermove
  rw [if_neg h1, if_neg h2, ite_self]

/-- Witness for C10: a move of pointer 2 in the three-pointer state changes
nothing at all. -/
theorem onpointermove_three_noop_witness :
    onpointermove threePointerState 2 { x := 99, y := 99 } = threePointerState :=
  onpointermove_three_noop threePointerState 2 { x := 99, y := 99 }
    (by norm_num [threePointerState, baseState])

/-- zoomOn after a pan translation, with a non-finite requested factor: the
resulting scale is the pre-pan scale clamped into [minZoom, maxZoom], since a
translation never changes the scale entry. -/
theorem zoomOn_moveBy_nonfin_a (mz Mz : ℝ) (t : Transform) (d p : Point) (v : JSVal)
    (hv : ∀ x : ℝ, v ≠ JSVal.fin x) (ha : t.a ≠ 0) (hmM : mz ≤ Mz) :
    (zoomOn mz Mz (moveBy t d) p v).a =
      if t.a < mz then mz else if Mz < t.a then Mz else t.a := by
  have h : (moveBy t d).a = t.a := rfl
  rw [zoomOn_nonfin_a mz Mz (moveBy t d) p v hv (by rw [h]; exact ha) hmM, h]

/-- C3 counterexample: in twoPointerSameState the two active pointers share
the device position (100, 100) and the scale 1 sits below minZoom 2 (as a
resize can leave it).  The claim says the move handler skips the zoom update
when the previous pinch distance is zero; it does not: a pan translation
cannot change the scale entry, yet moving pointer 1 to (200, 100) changes the
scale from 1 to 2, because zoomOn still ran — with the non-finite ratio
dist / 0, whose scale call the canvas ignores — and its min clamp fired. -/
theorem pinch_zero_distance_cex :
    (onpointermove twoPointerSameState 1 { x := 200, y := 100 }).transform.a = 2 ∧
    twoPointerSameState.transform.a = 1 := by
  constructor
  · rw [onpointermove_pinch_fst twoPointerSameState 1 2 { x := 100, y := 100 }
      { x := 100, y := 100 } { x := 200, y := 100 } rfl]
    dsimp only
    rw [distance_self]
    rw [zoomOn_moveBy_nonfin_a twoPointerSameState.minZoom twoPointerSameState.maxZoom
      twoPointerSameState.transform _ _ _ (jsDiv_zero_nonfin _)
      (by norm_num [twoPointerSameState, baseState])
      (by norm_num [twoPointerSameState, baseState])]
    norm_num [twoPointerSameState, baseState]
  · norm_num [twoPointerSameState, baseState]

/-- C3 (amended): a two-pointer move whose stored pointer positions coincide
is not skipped and not guarded: the handler still stores the new position and
still calls zoomOn with the ratio dist / 0, which is non-finite (Infinity or
NaN, never a finite value).  No non-finite value reaches the transform all
the same, because the canvas transform calls ignore non-finite arguments: the
resulting scale is exactly the previous scale clamped into
[minZoom, maxZoom], a finite real. -/
theorem pinch_same_point_scale (s : PZ) (i1 i2 id : Nat) (r q : Point)
    (hp : s.pointers = [(i1, r), (i2, r)]) (hne : i1 ≠ i2) (hid : id = i1 ∨ id = i2)
    (ha : s.transform.a ≠ 0) (hmM : s.minZoom ≤ s.maxZoom) :
    (onpointermove s id q).transform.a =
      (if s.transform.a < s.minZoom then s.minZoom
       else if s.maxZoom < s.transform.a then s.maxZoom else s.transform.a) ∧
    (onpointermove s id q).pointers = setPointer s.pointers id q := by
  rcases hid with h | h <;> subst h
  · rw [onpointermove_pinch_fst s id i2 r r q hp]
    constructor
    · dsimp only
      rw [distance_self]
      rw [zoomOn_moveBy_nonfin_a s.minZoom s.maxZoom s.transform _ _ _
        (jsDiv_zero_nonfin _) ha hmM]
    · dsimp only
      rw [hp]
      simp [setPointer]
  · rw [onpointermove_pinch_snd s i1 id r r q hp hne]
    constructor
    · dsimp only
      rw [distance_self]
      rw [zoomOn_moveBy_nonfin_a s.minZoom s.maxZoom s.transform _ _ _
        (jsDiv_zero_nonfin _) ha hmM]
    · dsimp only
      rw [hp]
      simp [setPointer, hne]

/-- Witness for C3 (amended): the concrete degenerate pinch move in
twoPointerSameState stores the new pointer position and clamps the scale 1 up
to minZoom 2. -/
theorem pinch_same_point_scale_witness :
    (onpointermove twoPointerSameState 1 { x := 200, y := 100 }).transform.a =
      (if twoPointerSameState.transform.a < twoPointerSameState.minZoom then
        twoPointerSameState.minZoom
       else if twoPointerSameState.maxZoom < twoPointerSameState.transform.a then
        twoPointerSameState.maxZoom
       else twoPointerSameState.transform.a) ∧
    (onpointermove twoPointerSameState 1 { x := 200, y := 100 }).pointers =
      setPointer twoPointerSameState.pointers 1 { x := 200, y := 100 } :=
  pinch_same_point_scale twoPointerSameState 1 2 1 { x := 100, y := 100 }
    { x := 200, y := 100 } rfl (by decide) (Or.inl rfl)
    (by norm_num [twoPointerSameState, baseState])
    (by norm_num [twoPointerSameState, baseState])

/-- Real square roots of the concrete squared distances of the pinch
scenario. -/
theorem sqrt_22500 : Real.sqrt 22500 = 150 := by
  rw [show (22500:ℝ) = 150 ^ 2 by norm_num]
  exact Real.sqrt_sq (by norm_num)

/-- Real square root of 10000. -/
theorem sqrt_10000 : Real.sqrt 10000 = 100 := by
  rw [show (10000:ℝ) = 100 ^ 2 by norm_num]
  exact Real.sqrt_sq (by norm_num)

/-- Real square root of 160000 / 9. -/
theorem sqrt_160000_9 : Real.sqrt (160000 / 9) = 400 / 3 := by
  rw [show (160000 / 9 : ℝ) = (400 / 3) ^ 2 by norm_num]
  exact Real.sqrt_sq (by norm_num)

/-- Real square root of 160000. -/
theorem sqrt_160000 : Real.sqrt 160000 = 400 := by
  rw [show (160000:ℝ) = 400 ^ 2 by norm_num]
  exact Real.sqrt_sq (by norm_num)

/-- Real square root of 9. -/
theorem sqrt_9 : Real.sqrt 9 = 3 := by
  rw [show (9:ℝ) = 3 ^ 2 by norm_num]
  exact Real.sqrt_sq (by norm_num)

/-- Full evaluation of the two-event pinch scenario from the identity
transform: pointer 1 moves from (100, 100) to (50, 100) (image distances 100
then 150, zoom 3/2), then pointer 2 moves from (200, 100) to (250, 100)
(image distances 100 then 400/3, zoom 4/3); the composite transform is
(a, e, f) = (2, -425/3, -100), and no clamp fires on the way. -/
theorem pinch_scenario_transform :
    (onpointermove (onpointermove pinchState 1 { x := 50, y := 100 }) 2
        { x := 250, y := 100 }).transform =
      { a := 2, e := -425 / 3, f := -100 } := by
  have h1 : onpointermove pinchState 1 { x := 50, y := 100 } =
      { pinchState with
          transform := { a := 3 / 2, e := -175 / 2, f := -50 },
          renders := pinchState.renders + 1,
          pointers := [(1, { x := 50, y := 100 }), (2, { x := 200, y := 100 })] } := by
    rw [onpointermove_pinch_fst pinchState 1 2 { x := 100, y := 100 } { x := 200, y := 100 }
      { x := 50, y := 100 } rfl]
    congr 1
    norm_num [pinchState, baseState, toImageSpace, midpoint, subtract, distance_mk,
      moveBy, Transform.translate, jsDiv, zoomOn, scaleAbout, Transform.scaleBy,
      Transform.mk.injEq, sqrt_22500, sqrt_10000]
  rw [h1]
  rw [onpointermove_pinch_snd _ 1 2 { x := 50, y := 100 } { x := 200, y := 100 }
    { x := 250, y := 100 } rfl (by decide)]
  dsimp only
  norm_num [pinchState, baseState, toImageSpace, midpoint, subtract, distance_mk,
    moveBy, Transform.translate, jsDiv, zoomOn, scaleAbout, Transform.scaleBy,
    Transform.mk.injEq, sqrt_160000_9, sqrt_160000, sqrt_9, sqrt_10000]

/-- C9 counterexample: after the two symmetric outward move events the image
point that started under the device midpoint (150, 100) — which is (150,
100), since the scenario starts at the identity transform — no longer
projects to (150, 100): the midpoint is not a fixed point of the composite
(its projection ends at (475/3, 100)). -/
theorem pinch_scenario_cex :
    applyT (onpointermove (onpointermove pinchState 1 { x := 50, y := 100 }) 2
        { x := 250, y := 100 }).transform { x := 150, y := 100 } ≠
      { x := 150, y := 100 } := by
  rw [pinch_scenario_transform]
  simp only [applyT, Point.mk.injEq, ne_eq, not_and]
  intro hx
  norm_num at hx

/-- C9 (amended): the scenario's net effect is a zoom by the exact factor 2,
but under the two sequential per-pointer move events its device-space fixed
point is (425/3, 100), not the midpoint (150, 100): the image point initially
under the midpoint ends under (475/3, 100).  The midpoint is only
approximately fixed when the per-event pointer motion is small. -/
theorem pinch_scenario_zoom :
    (onpointermove (onpointermove pinchState 1 { x := 50, y := 100 }) 2
        { x := 250, y := 100 }).transform.a = 2 ∧
    applyT (onpointermove (onpointermove pinchState 1 { x := 50, y := 100 }) 2
        { x := 250, y := 100 }).transform { x := 425 / 3, y := 100 } =
      { x := 425 / 3, y := 100 } ∧
    applyT (onpointermove (onpointermove pinchState 1 { x := 50, y := 100 }) 2
        { x := 250, y := 100 }).transform { x := 150, y := 100 } =
      { x := 475 / 3, y := 100 } := by
  rw [pinch_scenario_transform]
  refine ⟨rfl, ?_, ?_⟩ <;> · simp only [applyT, Point.mk.injEq]; norm_num

end Panzoom
